import Mathlib

/-!
# Goodix gf3208 fingerprint driver: lifecycle and event-routing core

A shallow embedding of `drivers/input/fingerprint/gf3208/gf_spi.c`.

The driver keeps its state in file-scope statics (`gf`, `pid`, `nl_sk`) and
talks to the rest of the kernel through calls whose outcome it cannot
control.  The embedding makes both explicit:

* `World` holds the statics together with the parts of the surrounding
  kernel that the driver's calls act on (claimed GPIO lines, the interrupt
  line's disable depth, the work item's queue state) and a `trace` of the
  calls made to external services, in program order;
* every outcome the driver merely receives (a lookup result, a return code,
  whether an allocation succeeds) is an explicit argument of the function
  that receives it.

`unsigned` arithmetic is `Nat` arithmetic modulo `2 ^ 32`.
-/

namespace GfSpi

/-! ## Constants -/

/-- Values of constants that `gf_spi.c` takes from kernel headers which are not
part of the sources at hand.  They are parameters of the model; the only fact
used about them is that an errno value is positive. -/
structure Consts where
  ENXIO : Int
  ENXIO_pos : 0 < ENXIO
  EFAULT : Int
  EINVAL : Int
  IRQ_HANDLED : Int
  NOTIFY_OK : Int
  KEY_KPENTER : Nat
  KEY_CAMERA : Nat
  ARCH_NR_GPIOS : Int
  NLMSG_SPACE_0 : Nat

/-- One instantiation of the header constants, used to evaluate the model on
concrete inputs. -/
def sampleConsts : Consts where
  ENXIO := 6
  ENXIO_pos := by decide
  EFAULT := 14
  EINVAL := 22
  IRQ_HANDLED := 1
  NOTIFY_OK := 1
  KEY_KPENTER := 96
  KEY_CAMERA := 212
  ARCH_NR_GPIOS := 1024
  NLMSG_SPACE_0 := 16

/-- `enum gf_key_event`, line 44. -/
def GF_KEY_NONE : Nat := 0
/-- `enum gf_key_event`, line 45. -/
def GF_KEY_HOME : Nat := 1
/-- `enum gf_key_event`, line 46. -/
def GF_KEY_POWER : Nat := 2
/-- `enum gf_key_event`, line 47. -/
def GF_KEY_CAMERA : Nat := 3

/-- Line 86, in ms. -/
def WAKELOCK_HOLD_TIME : Nat := 2000
/-- Line 87. -/
def FP_UNLOCK_REJECTION_TIMEOUT : Nat := WAKELOCK_HOLD_TIME - 500
/-- Line 95. -/
def GF_NET_EVENT_IRQ : Nat := 1
/-- Line 96. -/
def NETLINK_TEST : Nat := 25

/-- Modulus of `unsigned` arithmetic. -/
@[irreducible] def UINT_MOD : Nat := 2 ^ 32

/-- The `unsigned` value after `--`: one less, and `UINT_MAX` from 0. -/
def uint_dec (n : Nat) : Nat :=
  if n = 0 then UINT_MOD - 1 else n - 1

/-! ## Data model -/

/-- `struct gf_key`, lines 50-53; both fields are 32-bit words copied from the
caller, so `key` need not be one of the four enumerators. -/
structure gf_key where
  key : Nat
  value : Nat
  deriving DecidableEq, Repr

/-- The command word of `gf_ioctl`, decoded against the `case` labels of its
`switch` (lines 317-355).  The labels are the `GF_IOC_*` words of lines 61-66,
built with the `_IO`/`_IOR`/`_IOW` encoding of a header that is not at hand;
`unrecognized` is any word equal to none of the labels (the `default` arm). -/
inductive IoctlCmd where
  | GF_IOC_INIT
  | GF_IOC_RESET
  | GF_IOC_ENABLE_IRQ
  | GF_IOC_DISABLE_IRQ
  | GF_IOC_INPUT_KEY_EVENT
  | GF_IOC_HAL_INITED_READY
  | unrecognized (cmd : Nat)
  deriving DecidableEq, Repr

/-- Modelled from the spec: the notifier's event word `val`, whose values come
from `linux/msm_drm_notify.h` (not at hand).  The spec's display power-event
source "delivers events of kind {pre-blank, blank}"; `other` is any further
value of the word. -/
inductive DrmEvent where
  | MSM_DRM_EVENT_BLANK
  | MSM_DRM_EARLY_EVENT_BLANK
  | other (val : Nat)
  deriving DecidableEq, Repr

/-- Modelled from the spec: the word a display event's payload points to, whose
values come from `linux/msm_drm_notify.h` (not at hand).  The spec's payload is
one of "{unblank, power-down, other}", matching the `switch` of lines 441-459. -/
inductive DrmBlank where
  | MSM_DRM_BLANK_UNBLANK
  | MSM_DRM_BLANK_POWERDOWN
  | other (blank : Nat)
  deriving DecidableEq, Repr

/-- A call made by the driver to a service outside the file, with the
arguments that matter.  `sendnlmsg` marks entry into the driver's own
`sendnlmsg`, so that calls of it can be told from transmissions. -/
inductive Event where
  | sendnlmsg (message : Option Nat)
  | netlink_unicast (pid : Int) (message : Nat)
  | pm_wakeup_event (ms : Nat)
  | schedule_work
  | dsi_bridge_interface_enable (timeout : Nat)
  | input_report_key (code : Nat) (value : Nat)
  | input_sync
  | gpio_direction_output (gpio : Int) (value : Nat)
  | gpio_direction_input (gpio : Int)
  | gpio_set_value (gpio : Int) (value : Nat)
  | mdelay (ms : Nat)
  | disable_irq (irq : Int)
  | enable_irq (irq : Int)
  | enable_irq_wake (irq : Int)
  | disable_irq_wake (irq : Int)
  | free_irq (irq : Int)
  | class_destroy
  | unregister_chrdev
  deriving DecidableEq, Repr

/-- The fields of `struct gf_dev` (lines 68-84) that the modelled functions
read or write.  `users` is `unsigned`; the three `char` flags and the `int`
fields are integers. -/
structure gf_dev where
  devt : Nat
  users : Nat
  irq_gpio : Int
  reset_gpio : Int
  irq : Int
  irq_enabled : Int
  device_available : Int
  drm_black : Int
  wait_finger_down : Int
  deriving DecidableEq, Repr

/-- The driver's statics and the kernel state its calls act on.

* `gf`, `pid`, `nl_sk` (non-NULL or not): the statics of lines 105-107;
* `listed`: whether `gf` is on `device_list`;
* `claimed`: the GPIO lines currently requested;
* `irq_action`: the interrupt number on which the driver's handler is
  installed, if any; `irq_depth`: that line's disable depth;
  `unbalanced_enable`: set once `enable_irq` is called on the installed line
  at depth 0;
* `work_pending`, `worklist`: the pending bit of `gf.work` and the number of
  entries of it on the system workqueue;
* `trace`: the external calls made so far. -/
structure World where
  gf : gf_dev
  listed : Bool
  pid : Int
  nl_sk : Bool
  claimed : List Int
  irq_action : Option Int
  irq_depth : Nat
  unbalanced_enable : Bool
  work_pending : Bool
  worklist : Nat
  trace : List Event
  deriving DecidableEq, Repr

/-- Append one external call to the trace. -/
def emit (w : World) (e : Event) : World :=
  { w with trace := w.trace ++ [e] }

/-- The calls made between world `w` and a later world `w2`. -/
def newEvents (w w2 : World) : List Event :=
  w2.trace.drop w.trace.length

/-! ## Kernel services acted on by the driver

`gf_spi.c` calls these; their code lives elsewhere in the kernel tree and is
not at hand.  Each is modelled by its effect on the state the properties
below speak about, and appends its call to the trace where the call itself is
observed. -/

/-- Modelled from the spec: `devm_gpio_request` (gpiolib, not at hand) "claims"
a line; on return code 0 the line is claimed, otherwise nothing changes. -/
def devm_gpio_request (w : World) (gpio : Int) (rc : Int) : World :=
  if rc = 0 then { w with claimed := gpio :: w.claimed } else w

/-- Modelled from the spec: `gpio_free` / `devm_gpio_free` (gpiolib, not at
hand) "releases" a line; afterwards the line is not claimed. -/
def gpio_free (w : World) (gpio : Int) : World :=
  { w with claimed := w.claimed.filter (fun g => g ≠ gpio) }

/-- Modelled from the spec: `gpio_is_valid` (gpiolib, not at hand) tells a
valid line identifier, a number within the platform's range, from an invalid
one. -/
def gpio_is_valid (K : Consts) (gpio : Int) : Bool :=
  decide (0 ≤ gpio) && decide (gpio < K.ARCH_NR_GPIOS)

/-- Modelled from the spec: `request_threaded_irq` (interrupt core, not at
hand) "registers a handler"; on status 0 the handler is installed on `irq` and
the line starts enabled, at disable depth 0. -/
def request_threaded_irq (w : World) (irq : Int) (status : Int) : World :=
  if status = 0 then { w with irq_action := some irq, irq_depth := 0 } else w

/-- Modelled from the spec: `free_irq` (interrupt core, not at hand) "frees the
interrupt"; the handler is removed. -/
def free_irq (w : World) (irq : Int) : World :=
  let w := emit w (.free_irq irq)
  if w.irq_action = some irq then { w with irq_action := none } else w

/-- Modelled from the spec: `disable_irq` (interrupt core, not at hand)
"disables interrupt delivery"; the disable depth of the installed line goes up
by one. -/
def disable_irq (w : World) (irq : Int) : World :=
  let w := emit w (.disable_irq irq)
  if w.irq_action = some irq then { w with irq_depth := w.irq_depth + 1 } else w

/-- Modelled from the spec: `enable_irq` (interrupt core, not at hand) "enables
interrupt delivery"; the disable depth of the installed line goes down by one,
and a call at depth 0 is unbalanced and is recorded as such. -/
def enable_irq (w : World) (irq : Int) : World :=
  let w := emit w (.enable_irq irq)
  if w.irq_action = some irq then
    if w.irq_depth = 0 then { w with unbalanced_enable := true }
    else { w with irq_depth := w.irq_depth - 1 }
  else w

/-- Modelled from the spec: `schedule_work` of the kernel workqueue (not at
hand).  "Enqueue is a no-op if already pending; no double-scheduling": the
work item is put on the queue only when its pending bit is clear. -/
def schedule_work (w : World) : World :=
  let w := emit w .schedule_work
  if w.work_pending then w
  else { w with work_pending := true, worklist := w.worklist + 1 }

/-! ## The notification channel (lines 118-182) -/

/-- `sendnlmsg`, lines 118-147.  `message` is the byte the caller's `char`
holds (`none` for a NULL pointer); `alloc_ok` says whether `alloc_skb`
returns a buffer.  The value `netlink_unicast` returns is only logged. -/
def sendnlmsg (w : World) (message : Option Nat) (alloc_ok : Bool) : World :=
  let w := emit w (.sendnlmsg message)
  if message = none ∨ w.nl_sk = false ∨ w.pid = 0 then w
  else if alloc_ok = false then w
  else emit w (.netlink_unicast w.pid (message.getD 0))

/-- The `int` that a 32-bit unsigned word converts to. -/
def toInt32 (n : Nat) : Int :=
  if n % UINT_MOD < 2 ^ 31 then (n % UINT_MOD : Nat) else (n % UINT_MOD : Nat) - (UINT_MOD : Nat)

/-- `nl_data_ready`, lines 149-162: a message of at least header length
records its sender's port id in `pid`. -/
def nl_data_ready (K : Consts) (w : World) (len : Nat) (nlmsg_pid : Nat) : World :=
  if len ≥ K.NLMSG_SPACE_0 then { w with pid := toInt32 nlmsg_pid } else w

/-- `netlink_init`, lines 164-182; `created` says whether
`netlink_kernel_create` returns a socket. -/
def netlink_init (w : World) (created : Bool) : World × Int :=
  let w := { w with nl_sk := created }
  if w.nl_sk = false then (w, 1) else (w, 0)

/-! ## GPIO and interrupt resources (lines 194-276) -/

/-- What `gf_parse_dts` receives: the two `of_get_named_gpio` results and the
two `devm_gpio_request` return codes. -/
structure DtsEnv where
  reset_gpio : Int
  reset_rc : Int
  irq_gpio : Int
  irq_rc : Int
  deriving DecidableEq, Repr

/-- `gf_parse_dts`, lines 194-227. -/
def gf_parse_dts (w : World) (e : DtsEnv) : World × Int :=
  let w := { w with gf := { w.gf with reset_gpio := e.reset_gpio } }
  if w.gf.reset_gpio < 0 then (w, w.gf.reset_gpio)
  else
    let w := devm_gpio_request w w.gf.reset_gpio e.reset_rc
    if e.reset_rc ≠ 0 then (w, e.reset_rc)
    else
      let w := emit w (.gpio_direction_output w.gf.reset_gpio 0)
      let w := { w with gf := { w.gf with irq_gpio := e.irq_gpio } }
      if w.gf.irq_gpio < 0 then (w, w.gf.irq_gpio)
      else
        let w := devm_gpio_request w w.gf.irq_gpio e.irq_rc
        let w := if e.irq_rc ≠ 0 then gpio_free w w.gf.reset_gpio else w
        let w := emit w (.gpio_direction_input w.gf.irq_gpio)
        (w, e.irq_rc)

/-- `gf_cleanup`, lines 229-236. -/
def gf_cleanup (K : Consts) (w : World) : World :=
  let w := if gpio_is_valid K w.gf.irq_gpio then gpio_free w w.gf.irq_gpio else w
  if gpio_is_valid K w.gf.reset_gpio then gpio_free w w.gf.reset_gpio else w

/-- `notification_work`, lines 362-365. -/
def notification_work (w : World) : World :=
  emit w (.dsi_bridge_interface_enable FP_UNLOCK_REJECTION_TIMEOUT)

/-- Modelled from the spec: the kernel workqueue's worker (not at hand) taking
one entry of `gf.work`; the deferred task "runs once per enqueue": the entry
leaves the queue, the pending bit is cleared and the work function runs. -/
def process_one_work (w : World) : World :=
  if w.worklist = 0 then w
  else notification_work { w with worklist := w.worklist - 1, work_pending := false }

/-- Modelled from the spec: the worker (kernel workqueue, not at hand) running
until no entry of `gf.work` is left on the queue. -/
def drain_work (w : World) : World :=
  Nat.iterate process_one_work w.worklist w

/-- `gf_irq`, lines 238-250. -/
def gf_irq (K : Consts) (w : World) (alloc_ok : Bool) : World × Int :=
  let w := emit w (.pm_wakeup_event WAKELOCK_HOLD_TIME)
  let w := sendnlmsg w (some GF_NET_EVENT_IRQ) alloc_ok
  let w := if w.gf.device_available = 1 then
      schedule_work { w with gf := { w.gf with wait_finger_down := 0 } }
    else w
  (w, K.IRQ_HANDLED)

/-- `irq_setup`, lines 252-268; `irq` is what `gpio_to_irq` returns and
`status` what `request_threaded_irq` returns. -/
def irq_setup (w : World) (irq : Int) (status : Int) : World × Int :=
  let w := { w with gf := { w.gf with irq := irq } }
  let w := request_threaded_irq w w.gf.irq status
  if status ≠ 0 then (w, status)
  else
    let w := emit w (.enable_irq_wake w.gf.irq)
    let w := { w with gf := { w.gf with irq_enabled := 1 } }
    (w, status)

/-- `irq_cleanup`, lines 270-276. -/
def irq_cleanup (w : World) : World :=
  let w := { w with gf := { w.gf with irq_enabled := 0 } }
  let w := disable_irq w w.gf.irq
  let w := emit w (.disable_irq_wake w.gf.irq)
  free_irq w w.gf.irq

/-! ## Key injection and the command dispatcher (lines 278-360) -/

/-- `gf_kernel_key_input`, lines 278-307.  The trace records the arguments of
each `input_report_key` and `input_sync` call. -/
def gf_kernel_key_input (K : Consts) (w : World) (k : gf_key) : World :=
  let key_input : Nat :=
    if k.key = GF_KEY_HOME then K.KEY_KPENTER
    else if k.key = GF_KEY_POWER then K.KEY_KPENTER
    else if k.key = GF_KEY_CAMERA then K.KEY_CAMERA
    else k.key
  let w := if (GF_KEY_POWER = k.key ∨ GF_KEY_CAMERA = k.key) ∧ k.value = 1 then
      let w := emit w (.input_report_key key_input 1)
      let w := emit w .input_sync
      let w := emit w (.input_report_key key_input 0)
      emit w .input_sync
    else w
  if k.key = GF_KEY_HOME then
    let w := emit w (.input_report_key key_input k.value)
    emit w .input_sync
  else w

/-- What the user pointer `arg` of `gf_ioctl` gives: whether `copy_to_user`
can write to it, and the `struct gf_key` that `copy_from_user` reads from it
(`none` when the copy faults). -/
structure UserArg where
  writable : Bool
  key : Option gf_key
  deriving DecidableEq, Repr

/-- `gf_ioctl`, lines 309-360. -/
def gf_ioctl (K : Consts) (w : World) (cmd : IoctlCmd) (arg : UserArg) : World × Int :=
  match cmd with
  | .GF_IOC_INIT =>
    if arg.writable = false then (w, -K.EFAULT) else (w, 0)
  | .GF_IOC_DISABLE_IRQ =>
    if w.gf.irq_enabled ≠ 0 then
      let w := disable_irq w w.gf.irq
      ({ w with gf := { w.gf with irq_enabled := 0 } }, 0)
    else (w, 0)
  | .GF_IOC_ENABLE_IRQ =>
    if w.gf.irq_enabled = 0 then
      let w := enable_irq w w.gf.irq
      ({ w with gf := { w.gf with irq_enabled := 1 } }, 0)
    else (w, 0)
  | .GF_IOC_RESET =>
    let w := emit w (.gpio_direction_output w.gf.reset_gpio 1)
    let w := emit w (.gpio_set_value w.gf.reset_gpio 0)
    let w := emit w (.mdelay 3)
    let w := emit w (.gpio_set_value w.gf.reset_gpio 1)
    let w := emit w (.mdelay 3)
    (w, 0)
  | .GF_IOC_INPUT_KEY_EVENT =>
    match arg.key with
    | none => (w, -K.EFAULT)
    | some k => (gf_kernel_key_input K w k, 0)
  | .GF_IOC_HAL_INITED_READY =>
    ({ w with gf := { w.gf with device_available := 1 } }, 0)
  | .unrecognized _ => (w, 0)

/-! ## Open and release (lines 367-420) -/

/-- What one `gf_open` call receives: the device number of the inode, the
outcomes of `gf_parse_dts`, the interrupt number `gpio_to_irq` returns and the
status `request_threaded_irq` returns. -/
structure OpenEnv where
  i_rdev : Nat
  dts : DtsEnv
  irq : Int
  irq_status : Int
  deriving DecidableEq, Repr

/-- Lines 393-396 of `gf_open`: an enabled interrupt is disabled. -/
def gf_open_mask (w : World) : World :=
  if w.gf.irq_enabled ≠ 0 then
    let w := disable_irq w w.gf.irq
    { w with gf := { w.gf with irq_enabled := 0 } }
  else w

/-- `gf_open`, lines 367-402.  `status` starts as `-ENXIO` and the list walk
sets it to 0 exactly when `gf` is on `device_list` and its `devt` is the
inode's; that test is the outer condition here, and the `else` arm returns the
untouched `-ENXIO`. -/
def gf_open (K : Consts) (w : World) (e : OpenEnv) : World × Int :=
  if w.listed = true ∧ w.gf.devt = e.i_rdev then
    let w := { w with gf := { w.gf with users := (w.gf.users + 1) % UINT_MOD } }
    if w.gf.users = 1 then
      let r := gf_parse_dts w e.dts
      if r.2 ≠ 0 then r
      else
        let r := irq_setup r.1 e.irq e.irq_status
        let w := if r.2 ≠ 0 then gf_cleanup K r.1 else r.1
        (gf_open_mask w, r.2)
    else (gf_open_mask w, 0)
  else (w, -K.ENXIO)

/-- `gf_release`, lines 404-420. -/
def gf_release (K : Consts) (w : World) : World × Int :=
  let w := { w with gf := { w.gf with users := uint_dec w.gf.users } }
  if w.gf.users = 0 then
    let w := irq_cleanup w
    let w := gf_cleanup K w
    ({ w with gf := { w.gf with device_available := 0 } }, 0)
  else (w, 0)

/-! ## Display events (lines 429-463) -/

/-- `gf_state_chg_cb`, lines 429-463.  `evdata` is `none` for a NULL event,
`some none` for an event whose `data` is NULL, and otherwise carries the word
`data` points to. -/
def gf_state_chg_cb (K : Consts) (w : World) (val : DrmEvent)
    (evdata : Option (Option DrmBlank)) (alloc_ok : Bool) : World × Int :=
  if val ≠ .MSM_DRM_EVENT_BLANK ∧ val ≠ .MSM_DRM_EARLY_EVENT_BLANK then (w, 0)
  else
    match evdata with
    | some (some blank) =>
      if val = .MSM_DRM_EVENT_BLANK then
        match blank with
        | .MSM_DRM_BLANK_UNBLANK =>
          if w.gf.device_available = 1 then
            let w := { w with gf := { w.gf with drm_black := 0 } }
            (sendnlmsg w (some 3) alloc_ok, K.NOTIFY_OK)
          else (w, K.NOTIFY_OK)
        | .MSM_DRM_BLANK_POWERDOWN =>
          if w.gf.device_available = 1 then
            let w := { w with gf := { w.gf with drm_black := 1, wait_finger_down := 1 } }
            (sendnlmsg w (some 2) alloc_ok, K.NOTIFY_OK)
          else (w, K.NOTIFY_OK)
        | .other _ => (w, K.NOTIFY_OK)
      else (w, K.NOTIFY_OK)
    | _ => (w, K.NOTIFY_OK)

/-! ## Module load (lines 577-610) -/

/-- What `gf_init` receives: the value of `fpsensor`, the return value of
`register_chrdev`, the error `class_create` returns (`none` for a valid
class), the return value of `platform_driver_register`, and whether
`netlink_kernel_create` returns a socket. -/
structure InitEnv where
  fpsensor : Int
  register_chrdev : Int
  class_create_err : Option Int
  platform_driver_register : Int
  netlink_created : Bool
  deriving DecidableEq, Repr

/-- `gf_init`, lines 577-610.  The registrations themselves act on no state
of `World`; their outcomes decide the control flow.  The value `netlink_init`
returns is not used (line 608). -/
def gf_init (w : World) (e : InitEnv) : World × Int :=
  if e.fpsensor ≠ 2 then (w, -1)
  else if e.register_chrdev < 0 then (w, e.register_chrdev)
  else
    match e.class_create_err with
    | some err => (w, err)
    | none =>
      let w := if e.platform_driver_register < 0 then
          emit (emit w .class_destroy) .unregister_chrdev
        else w
      let r := netlink_init w e.netlink_created
      (r.1, 0)

/-! ## Initial states -/

/-- The statics as the module image initialises them (lines 103-107): `gf`
zeroed, `device_list` empty, `pid = -1`, `nl_sk = NULL`; nothing claimed,
installed or queued. -/
def loaded : World where
  gf := { devt := 0, users := 0, irq_gpio := 0, reset_gpio := 0, irq := 0,
          irq_enabled := 0, device_available := 0, drm_black := 0,
          wait_finger_down := 0 }
  listed := false
  pid := -1
  nl_sk := false
  claimed := []
  irq_action := none
  irq_depth := 0
  unbalanced_enable := false
  work_pending := false
  worklist := 0
  trace := []

/-- The world after a `gf_probe` that succeeds on `w` with device number
`devt`: the field initialisation of lines 480-484, `devt` (line 491) and
`list_add` (line 504). -/
def probed (K : Consts) (w : World) (devt : Nat) : World :=
  { w with
    gf := { w.gf with devt := devt, irq_gpio := -K.EINVAL, reset_gpio := -K.EINVAL,
                      device_available := 0, drm_black := 0, wait_finger_down := 0 }
    listed := true }

/-! ## Sequences of operations -/

/-- One entry into the driver, with what it receives. -/
inductive Op where
  | gf_open (e : OpenEnv)
  | gf_release
  | gf_ioctl (cmd : IoctlCmd) (arg : UserArg)
  | gf_irq (alloc_ok : Bool)
  | gf_state_chg_cb (val : DrmEvent) (evdata : Option (Option DrmBlank)) (alloc_ok : Bool)
  | process_one_work
  | nl_data_ready (len : Nat) (nlmsg_pid : Nat)
  deriving DecidableEq, Repr

/-- The world after one operation. -/
def step (K : Consts) (w : World) : Op → World
  | .gf_open e => (gf_open K w e).1
  | .gf_release => (gf_release K w).1
  | .gf_ioctl cmd arg => (gf_ioctl K w cmd arg).1
  | .gf_irq alloc_ok => (gf_irq K w alloc_ok).1
  | .gf_state_chg_cb val evdata alloc_ok => (gf_state_chg_cb K w val evdata alloc_ok).1
  | .process_one_work => process_one_work w
  | .nl_data_ready len nlmsg_pid => nl_data_ready K w len nlmsg_pid

/-- The world after a sequence of operations. -/
def run (K : Consts) (w : World) (ops : List Op) : World :=
  ops.foldl (step K) w

/-! ## Observations on traces -/

/-- The arguments of the `sendnlmsg` calls in a list of events. -/
def sendCalls (l : List Event) : List (Option Nat) :=
  l.filterMap (fun e => match e with
    | .sendnlmsg m => some m
    | _ => none)

/-- The number of `schedule_work` calls in a list of events. -/
def scheduleCalls (l : List Event) : Nat :=
  l.count .schedule_work

/-- The transmissions (`netlink_unicast` calls) in a list of events, as
(destination, byte). -/
def unicasts (l : List Event) : List (Int × Nat) :=
  l.filterMap (fun e => match e with
    | .netlink_unicast p m => some (p, m)
    | _ => none)

/-- What happens on a GPIO line, seen from outside: it is driven to a level,
or time passes. -/
inductive LineOp where
  | drive (level : Nat)
  | delay (ms : Nat)
  deriving DecidableEq, Repr

/-- The line activity on `gpio` in a list of events. -/
def lineOps (gpio : Int) (l : List Event) : List LineOp :=
  l.filterMap (fun e => match e with
    | .gpio_direction_output g v => if g = gpio then some (.drive v) else none
    | .gpio_set_value g v => if g = gpio then some (.drive v) else none
    | .mdelay ms => some (.delay ms)
    | _ => none)

/-! ## Reference behaviours, as the specification words them -/

/-- The input-sink calls the specification gives for a key event: a
press-release pulse for Power (as KPEnter) and Camera when the value is 1, one
report of the caller's value for Home (as KPEnter), nothing otherwise. -/
def key_input_reference (K : Consts) (k : gf_key) : List Event :=
  if (k.key = GF_KEY_POWER ∨ k.key = GF_KEY_CAMERA) ∧ k.value = 1 then
    let code := if k.key = GF_KEY_POWER then K.KEY_KPENTER else K.KEY_CAMERA
    [.input_report_key code 1, .input_sync, .input_report_key code 0, .input_sync]
  else if k.key = GF_KEY_HOME then
    [.input_report_key K.KEY_KPENTER k.value, .input_sync]
  else []

/-- The reset-line activity the specification's testable property gives for a
Reset command: high, low, a delay of at least 3 ms, high, a delay of at least
3 ms, high. -/
def ResetSequenceAsSpecified (l : List LineOp) : Prop :=
  ∃ d1 d2 : Nat, 3 ≤ d1 ∧ 3 ≤ d2 ∧
    l = [.drive 1, .drive 0, .delay d1, .drive 1, .delay d2, .drive 1]

/-- Both lines of the device are claimed. -/
def resources_held (w : World) : Prop :=
  w.gf.reset_gpio ∈ w.claimed ∧ w.gf.irq_gpio ∈ w.claimed

instance (w : World) : Decidable (resources_held w) := by
  unfold resources_held; infer_instance

/-- A freshly probed device with the notification channel not yet created. -/
def fresh : World := probed sampleConsts loaded 0

/-- What an open receives when every acquisition step succeeds: reset line 10,
interrupt line 11, interrupt number 5. -/
def okOpen : OpenEnv := ⟨0, ⟨10, 0, 11, 0⟩, 5, 0⟩

/-- A device that is open with interrupts enabled: a freshly probed device
after one successful open and an EnableIrq command. -/
def openAndEnabled : World :=
  (gf_ioctl sampleConsts (gf_open sampleConsts fresh okOpen).1 .GF_IOC_ENABLE_IRQ ⟨true, none⟩).1

/-- A sample life of the device: open, EnableIrq, DisableIrq, EnableIrq, a
second open, a release, EnableIrq, the last release, and a new first open. -/
def lifecycleOps : List Op :=
  [.gf_open okOpen, .gf_ioctl .GF_IOC_ENABLE_IRQ ⟨true, none⟩,
   .gf_ioctl .GF_IOC_DISABLE_IRQ ⟨true, none⟩, .gf_ioctl .GF_IOC_ENABLE_IRQ ⟨true, none⟩,
   .gf_open okOpen, .gf_release, .gf_ioctl .GF_IOC_ENABLE_IRQ ⟨true, none⟩, .gf_release,
   .gf_open okOpen]

/-- The part of the world that interrupt masking reads and writes. -/
structure IrqState where
  users : Nat
  irq : Int
  irq_enabled : Int
  action : Option Int
  depth : Nat
  unbalanced : Bool
  deriving DecidableEq, Repr

/-- The interrupt-masking part of a world. -/
def irqState (w : World) : IrqState :=
  ⟨w.gf.users, w.gf.irq, w.gf.irq_enabled, w.irq_action, w.irq_depth, w.unbalanced_enable⟩

/-- What `disable_irq` does to the interrupt-masking part. -/
def IrqState.onDisable (s : IrqState) (n : Int) : IrqState :=
  { s with depth := if s.action = some n then s.depth + 1 else s.depth }

/-- What `enable_irq` does to the interrupt-masking part. -/
def IrqState.onEnable (s : IrqState) (n : Int) : IrqState :=
  { s with
    depth := if s.action = some n then s.depth - 1 else s.depth
    unbalanced := if s.action = some n ∧ s.depth = 0 then true else s.unbalanced }

/-- What lines 393-396 of `gf_open` do to the interrupt-masking part. -/
def IrqState.onMask (s : IrqState) : IrqState :=
  if s.irq_enabled ≠ 0 then { s.onDisable s.irq with irq_enabled := 0 } else s

/-- What `irq_setup` does to the interrupt-masking part. -/
def IrqState.onSetup (s : IrqState) (irq status : Int) : IrqState :=
  if status = 0 then { s with irq := irq, irq_enabled := 1, action := some irq, depth := 0 }
  else { s with irq := irq }

/-- What `irq_cleanup` does to the interrupt-masking part. -/
def IrqState.onCleanup (s : IrqState) : IrqState :=
  { s with
    irq_enabled := 0
    depth := if s.action = some s.irq then s.depth + 1 else s.depth
    action := if s.action = some s.irq then none else s.action }

/-- What `gf_release` does to the interrupt-masking part. -/
def IrqState.onRelease (s : IrqState) : IrqState :=
  if uint_dec s.users = 0 then { s with users := uint_dec s.users }.onCleanup
  else { s with users := uint_dec s.users }

/-- What `gf_ioctl` does to the interrupt-masking part. -/
def IrqState.onIoctl (s : IrqState) : IoctlCmd → IrqState
  | .GF_IOC_ENABLE_IRQ =>
    if s.irq_enabled = 0 then { s.onEnable s.irq with irq_enabled := 1 } else s
  | .GF_IOC_DISABLE_IRQ =>
    if s.irq_enabled ≠ 0 then { s.onDisable s.irq with irq_enabled := 0 } else s
  | _ => s

/-- The value `gf_parse_dts` returns, which depends on what it receives only. -/
def dts_status (e : DtsEnv) : Int :=
  if e.reset_gpio < 0 then e.reset_gpio
  else if e.reset_rc ≠ 0 then e.reset_rc
  else if e.irq_gpio < 0 then e.irq_gpio
  else e.irq_rc

/-- What `gf_open` does to the interrupt-masking part, given whether the
device was found. -/
def IrqState.onOpen (s : IrqState) (found : Bool) (e : OpenEnv) : IrqState :=
  if found = true then
    if (s.users + 1) % UINT_MOD = 1 then
      if dts_status e.dts ≠ 0 then { s with users := (s.users + 1) % UINT_MOD }
      else ({ s with users := (s.users + 1) % UINT_MOD }.onSetup e.irq e.irq_status).onMask
    else { s with users := (s.users + 1) % UINT_MOD }.onMask
  else s

/-- What one operation does to the interrupt-masking part, given whether an
open finds the device. -/
def IrqState.onStep (s : IrqState) (found : Bool) : Op → IrqState
  | .gf_open e => s.onOpen found e
  | .gf_release => s.onRelease
  | .gf_ioctl cmd _ => s.onIoctl cmd
  | _ => s

/-- The interrupt line is balanced: no unbalanced enable has happened, and
either no handler is installed and no handle is open, or the handler is
installed on `irq` and the line is enabled at depth 0 or masked at depth 1. -/
def IrqState.Balanced (s : IrqState) : Prop :=
  s.unbalanced = false ∧
  ((s.action = none ∧ s.users = 0) ∨
   (s.action = some s.irq ∧
     ((s.irq_enabled = 1 ∧ s.depth = 0) ∨ (s.irq_enabled = 0 ∧ s.depth = 1))))

/-- An operation is the EnableIrq command. -/
def Op.isEnableIrq : Op → Bool
  | .gf_ioctl .GF_IOC_ENABLE_IRQ _ => true
  | _ => false

/-- Every acquisition step of an open succeeds: both line lookups return a
line number, both requests return 0, and the interrupt request returns 0. -/
def OpenEnv.allOk (e : OpenEnv) : Bool :=
  decide (0 ≤ e.dts.reset_gpio) && decide (e.dts.reset_rc = 0) && decide (0 ≤ e.dts.irq_gpio)
    && decide (e.dts.irq_rc = 0) && decide (e.irq_status = 0)

/-- Every open in the sequence has all its acquisition steps succeed. -/
def opensSucceed : List Op → Bool
  | [] => true
  | .gf_open e :: ops => e.allOk && opensSucceed ops
  | _ :: ops => opensSucceed ops

/-- Every release in the sequence, run from `w`, happens with a handle open
(`users > 0`). -/
def releasesOnOpenHandle (K : Consts) (w : World) : List Op → Bool
  | [] => true
  | .gf_release :: ops =>
    decide (0 < w.gf.users) && releasesOnOpenHandle K (step K w .gf_release) ops
  | op :: ops => releasesOnOpenHandle K (step K w op) ops

/-! ## Basic facts about the trace -/

theorem newEvents_append (w w2 : World) (l : List Event) (h : w2.trace = w.trace ++ l) :
    newEvents w w2 = l := by
  simp [newEvents, h]

theorem sendnlmsg_eq (w : World) (m : Option Nat) (a : Bool) :
    ∃ l, sendnlmsg w m a = { w with trace := w.trace ++ l } ∧ sendCalls l = [m]
      ∧ scheduleCalls l = 0 := by
  unfold sendnlmsg emit
  dsimp only
  split_ifs
  · exact ⟨[.sendnlmsg m], rfl, rfl, rfl⟩
  · exact ⟨[.sendnlmsg m], rfl, rfl, rfl⟩
  · refine ⟨[.sendnlmsg m, .netlink_unicast w.pid (m.getD 0)], by simp, rfl, ?_⟩
    simp [scheduleCalls]

/-! ## Key injection -/

theorem gf_kernel_key_input_eq (K : Consts) (w : World) (k : gf_key) :
    gf_kernel_key_input K w k = { w with trace := w.trace ++ key_input_reference K k } := by
  obtain ⟨key, value⟩ := k
  simp only [gf_kernel_key_input, key_input_reference, emit, GF_KEY_HOME, GF_KEY_POWER,
    GF_KEY_CAMERA]
  by_cases h1 : key = 1
  · subst h1; simp
  · by_cases h2 : key = 2
    · subst h2
      by_cases hv : value = 1 <;> simp [hv]
    · by_cases h3 : key = 3
      · subst h3
        by_cases hv : value = 1 <;> simp [hv]
      · simp [h1, h2, h3, Ne.symm h2, Ne.symm h3]

/-- C3: for every key event, `gf_kernel_key_input` changes nothing but the
trace, to which it appends exactly the reference sequence of input-sink calls
(a press-release pulse with code KPEnter for Power and with code Camera for
Camera when the value is 1; one report of the caller's value with code KPEnter
for Home; nothing otherwise).  In particular Power with value 1 gives two
reports and two syncs, Home gives one report of its value and one sync, and
Camera with value 0 gives nothing. -/
theorem gf_kernel_key_input_calls (K : Consts) (w : World) (k : gf_key) :
    gf_kernel_key_input K w k = { w with trace := w.trace ++ key_input_reference K k }
    ∧ newEvents w (gf_kernel_key_input K w ⟨GF_KEY_POWER, 1⟩)
        = [.input_report_key K.KEY_KPENTER 1, .input_sync,
           .input_report_key K.KEY_KPENTER 0, .input_sync]
    ∧ newEvents w (gf_kernel_key_input K w ⟨GF_KEY_HOME, 1⟩)
        = [.input_report_key K.KEY_KPENTER 1, .input_sync]
    ∧ newEvents w (gf_kernel_key_input K w ⟨GF_KEY_HOME, 0⟩)
        = [.input_report_key K.KEY_KPENTER 0, .input_sync]
    ∧ newEvents w (gf_kernel_key_input K w ⟨GF_KEY_CAMERA, 0⟩) = [] := by
  refine ⟨gf_kernel_key_input_eq K w k, ?_, ?_, ?_, ?_⟩
  all_goals
    simp [newEvents, gf_kernel_key_input, emit, GF_KEY_HOME, GF_KEY_POWER, GF_KEY_CAMERA]

/-! ## Display events -/

/-- C4: on a blank (non-early) display event whose payload is present and says
power-down, `gf_state_chg_cb` with `device_available = 1` sets `drm_black` to
1 and `wait_finger_down` to true, leaves the other device fields as they were,
and calls `sendnlmsg` exactly once, with code 2; with `device_available`
other than 1 it leaves the whole state unchanged and calls `sendnlmsg` zero
times. -/
theorem gf_state_chg_cb_powerdown (K : Consts) (w : World) (alloc_ok : Bool) :
    (w.gf.device_available = 1 →
      (gf_state_chg_cb K w .MSM_DRM_EVENT_BLANK
          (some (some .MSM_DRM_BLANK_POWERDOWN)) alloc_ok).1.gf
        = { w.gf with drm_black := 1, wait_finger_down := 1 }
      ∧ sendCalls (newEvents w (gf_state_chg_cb K w .MSM_DRM_EVENT_BLANK
          (some (some .MSM_DRM_BLANK_POWERDOWN)) alloc_ok).1) = [some 2])
    ∧ (w.gf.device_available ≠ 1 →
      (gf_state_chg_cb K w .MSM_DRM_EVENT_BLANK
          (some (some .MSM_DRM_BLANK_POWERDOWN)) alloc_ok).1 = w
      ∧ sendCalls (newEvents w (gf_state_chg_cb K w .MSM_DRM_EVENT_BLANK
          (some (some .MSM_DRM_BLANK_POWERDOWN)) alloc_ok).1) = []) := by
  have hcb : gf_state_chg_cb K w .MSM_DRM_EVENT_BLANK
      (some (some .MSM_DRM_BLANK_POWERDOWN)) alloc_ok
      = if w.gf.device_available = 1 then
          (sendnlmsg { w with gf := { w.gf with drm_black := 1, wait_finger_down := 1 } }
            (some 2) alloc_ok, K.NOTIFY_OK)
        else (w, K.NOTIFY_OK) := by
    simp [gf_state_chg_cb]
  rw [hcb]
  constructor
  · intro h
    rw [if_pos h]
    obtain ⟨l, hl, hs, _⟩ := sendnlmsg_eq
      { w with gf := { w.gf with drm_black := 1, wait_finger_down := 1 } } (some 2) alloc_ok
    rw [hl]
    exact ⟨rfl, by rw [newEvents_append w _ l rfl, hs]⟩
  · intro h
    rw [if_neg h]
    simp [newEvents, sendCalls]

/-! ## The Reset command -/

theorem gf_ioctl_reset_eq (K : Consts) (w : World) (arg : UserArg) :
    gf_ioctl K w .GF_IOC_RESET arg
      = ({ w with trace := w.trace ++
            [.gpio_direction_output w.gf.reset_gpio 1, .gpio_set_value w.gf.reset_gpio 0,
             .mdelay 3, .gpio_set_value w.gf.reset_gpio 1, .mdelay 3] }, 0) := by
  simp [gf_ioctl, emit]

theorem gf_ioctl_reset_lineOps (K : Consts) (w : World) (arg : UserArg) :
    lineOps w.gf.reset_gpio (newEvents w (gf_ioctl K w .GF_IOC_RESET arg).1)
      = [.drive 1, .drive 0, .delay 3, .drive 1, .delay 3] := by
  rw [gf_ioctl_reset_eq]
  simp [newEvents, lineOps]

/-- C6, as the code has it: for every state the Reset command changes nothing
but the trace, to which it appends exactly
`gpio_direction_output(reset, 1)`, `gpio_set_value(reset, 0)`, `mdelay(3)`,
`gpio_set_value(reset, 1)`, `mdelay(3)`, and it returns 0.  On the reset line
that is: high, low, 3 ms, high, 3 ms; three line writes and two delays, the
last action being the second delay. -/
theorem gf_ioctl_reset_sequence (K : Consts) (w : World) (arg : UserArg) :
    gf_ioctl K w .GF_IOC_RESET arg
      = ({ w with trace := w.trace ++
            [.gpio_direction_output w.gf.reset_gpio 1, .gpio_set_value w.gf.reset_gpio 0,
             .mdelay 3, .gpio_set_value w.gf.reset_gpio 1, .mdelay 3] }, 0)
    ∧ lineOps w.gf.reset_gpio (newEvents w (gf_ioctl K w .GF_IOC_RESET arg).1)
      = [.drive 1, .drive 0, .delay 3, .drive 1, .delay 3] :=
  ⟨gf_ioctl_reset_eq K w arg, gf_ioctl_reset_lineOps K w arg⟩

/-- C6 fails as stated: on a freshly probed device the reset-line activity of
the Reset command is not the six-step sequence high, low, delay, high, delay,
high; it has five steps and ends with the second delay. -/
theorem gf_ioctl_reset_not_six_steps :
    ¬ ResetSequenceAsSpecified
        (lineOps fresh.gf.reset_gpio
          (newEvents fresh (gf_ioctl sampleConsts fresh .GF_IOC_RESET ⟨true, none⟩).1)) := by
  rw [gf_ioctl_reset_lineOps sampleConsts fresh ⟨true, none⟩]
  rintro ⟨d1, d2, _, _, h⟩
  simp at h

/-! ## Failure paths -/

/-- C7 at its failing input: the reset line resolves to 10 and is claimed, the
interrupt line's lookup returns -2.  `gf_parse_dts` returns the error -2 and
line 10 is still claimed; `gf_open`, which calls it on the first open, returns
the same error and leaves line 10 claimed as well. -/
theorem gf_parse_dts_leaks_reset_line :
    (gf_parse_dts fresh ⟨10, 0, -2, 0⟩).2 = -2
    ∧ (gf_parse_dts fresh ⟨10, 0, -2, 0⟩).1.claimed = [10]
    ∧ (gf_open sampleConsts fresh ⟨0, ⟨10, 0, -2, 0⟩, 0, 0⟩).2 = -2
    ∧ (gf_open sampleConsts fresh ⟨0, ⟨10, 0, -2, 0⟩, 0, 0⟩).1.claimed = [10] := by
  refine ⟨?_, ?_, ?_, ?_⟩ <;> with_unfolding_all decide

/-- C1 at its failing input: on a freshly probed device one `gf_open` whose
reset-line lookup fails returns the error and leaves `users = 1` with no line
claimed, so "lines held iff `users > 0`" is false after that call.  The same
happens when the interrupt request fails.  A following `gf_open` then finds
`users = 2`, acquires nothing and returns success with no line held. -/
theorem failed_open_breaks_held_iff_users :
    (gf_open sampleConsts fresh ⟨0, ⟨-2, 0, 0, 0⟩, 0, 0⟩).2 = -2
    ∧ (gf_open sampleConsts fresh ⟨0, ⟨-2, 0, 0, 0⟩, 0, 0⟩).1.gf.users = 1
    ∧ (gf_open sampleConsts fresh ⟨0, ⟨-2, 0, 0, 0⟩, 0, 0⟩).1.claimed = []
    ∧ ¬ (resources_held (gf_open sampleConsts fresh ⟨0, ⟨-2, 0, 0, 0⟩, 0, 0⟩).1
          ↔ 0 < (gf_open sampleConsts fresh ⟨0, ⟨-2, 0, 0, 0⟩, 0, 0⟩).1.gf.users)
    ∧ (gf_open sampleConsts fresh ⟨0, ⟨10, 0, 11, 0⟩, 5, -16⟩).2 = -16
    ∧ (gf_open sampleConsts fresh ⟨0, ⟨10, 0, 11, 0⟩, 5, -16⟩).1.gf.users = 1
    ∧ (gf_open sampleConsts fresh ⟨0, ⟨10, 0, 11, 0⟩, 5, -16⟩).1.claimed = []
    ∧ (gf_open sampleConsts (gf_open sampleConsts fresh ⟨0, ⟨-2, 0, 0, 0⟩, 0, 0⟩).1
          ⟨0, ⟨10, 0, 11, 0⟩, 5, 0⟩).2 = 0
    ∧ (gf_open sampleConsts (gf_open sampleConsts fresh ⟨0, ⟨-2, 0, 0, 0⟩, 0, 0⟩).1
          ⟨0, ⟨10, 0, 11, 0⟩, 5, 0⟩).1.gf.users = 2
    ∧ (gf_open sampleConsts (gf_open sampleConsts fresh ⟨0, ⟨-2, 0, 0, 0⟩, 0, 0⟩).1
          ⟨0, ⟨10, 0, 11, 0⟩, 5, 0⟩).1.claimed = [] := by
  refine ⟨?_, ?_, ?_, ?_, ?_, ?_, ?_, ?_, ?_, ?_⟩ <;> with_unfolding_all decide

/-- C8 at its failing input: the channel has been created, no inbound message
has arrived (`pid` still has its initial value -1) and the buffer allocation
succeeds.  `sendnlmsg` makes one `netlink_unicast`, to port id -1. -/
theorem sendnlmsg_transmits_without_endpoint :
    (netlink_init loaded true).1.pid = -1
    ∧ (sendnlmsg (netlink_init loaded true).1 (some GF_NET_EVENT_IRQ) true).trace
        = [.sendnlmsg (some 1), .netlink_unicast (-1) 1]
    ∧ unicasts (newEvents (netlink_init loaded true).1
        (sendnlmsg (netlink_init loaded true).1 (some GF_NET_EVENT_IRQ) true)) = [(-1, 1)] := by
  refine ⟨?_, ?_, ?_⟩ <;> with_unfolding_all decide

/-- C9 at its failing input: `fpsensor = 2`, the character device, the class
and the platform driver register, and `netlink_kernel_create` returns NULL.
`netlink_init` reports the failure (returns 1), and `gf_init` returns 0 with
no channel. -/
theorem gf_init_succeeds_without_channel :
    (netlink_init loaded false).2 = 1
    ∧ (gf_init loaded ⟨2, 0, none, 0, false⟩).2 = 0
    ∧ (gf_init loaded ⟨2, 0, none, 0, false⟩).1.nl_sk = false := by
  refine ⟨?_, ?_, ?_⟩ <;> with_unfolding_all decide

/-! ## The interrupt handler -/

theorem gf_irq_eq (K : Consts) (w : World) (a : Bool) :
    ∃ l, sendCalls l = [some GF_NET_EVENT_IRQ] ∧ scheduleCalls l = 0
      ∧ gf_irq K w a
        = (if w.gf.device_available = 1 then
            schedule_work { w with gf := { w.gf with wait_finger_down := 0 },
                                   trace := w.trace ++ l }
           else { w with trace := w.trace ++ l }, K.IRQ_HANDLED) := by
  obtain ⟨l, hl, hs, hc⟩ :=
    sendnlmsg_eq (emit w (.pm_wakeup_event WAKELOCK_HOLD_TIME)) (some GF_NET_EVENT_IRQ) a
  refine ⟨.pm_wakeup_event WAKELOCK_HOLD_TIME :: l, ?_, ?_, ?_⟩
  · simp only [sendCalls, List.filterMap_cons] at hs ⊢
    exact hs
  · simp only [scheduleCalls] at hc ⊢
    simp [hc]
  · unfold gf_irq
    dsimp only
    rw [hl]
    simp [emit]

theorem schedule_work_eq (w : World) :
    schedule_work w
      = { w with trace := w.trace ++ [.schedule_work], work_pending := true,
                 worklist := if w.work_pending = true then w.worklist else w.worklist + 1 } := by
  unfold schedule_work emit
  dsimp only
  cases h : w.work_pending <;> simp [h]

theorem gf_irq_fields (K : Consts) (w : World) (a : Bool) :
    (gf_irq K w a).1.gf
        = (if w.gf.device_available = 1 then { w.gf with wait_finger_down := 0 } else w.gf)
    ∧ (gf_irq K w a).1.work_pending
        = (if w.gf.device_available = 1 then true else w.work_pending)
    ∧ (gf_irq K w a).1.worklist
        = (if w.gf.device_available = 1 ∧ w.work_pending = false then w.worklist + 1
           else w.worklist) := by
  obtain ⟨l, _, _, h⟩ := gf_irq_eq K w a
  rw [h, schedule_work_eq]
  by_cases hav : w.gf.device_available = 1
  · simp only [hav, if_true, true_and]
    cases hp : w.work_pending <;> simp
  · simp [hav]

theorem gf_irq_trace (K : Consts) (w : World) (a : Bool) :
    ∃ l, (gf_irq K w a).1.trace = w.trace ++ l ∧ sendCalls l = [some GF_NET_EVENT_IRQ]
      ∧ scheduleCalls l = (if w.gf.device_available = 1 then 1 else 0) := by
  obtain ⟨l, hs, hc, h⟩ := gf_irq_eq K w a
  rw [h, schedule_work_eq]
  by_cases hav : w.gf.device_available = 1
  · refine ⟨l ++ [.schedule_work], by simp [hav], ?_, ?_⟩
    · simp only [sendCalls, List.filterMap_append] at hs ⊢
      simp [hs]
    · simp only [scheduleCalls] at hc ⊢
      simp [hc, hav]
  · exact ⟨l, by simp [hav], hs, by simp [hav, hc]⟩

theorem run_cons (K : Consts) (w : World) (op : Op) (ops : List Op) :
    run K w (op :: ops) = run K (step K w op) ops := rfl

theorem run_irq_edges_pending (K : Consts) (allocs : List Bool) (w : World)
    (hav : w.gf.device_available = 1) (hp : w.work_pending = true) (hl : w.worklist = 1) :
    (run K w (allocs.map Op.gf_irq)).work_pending = true
    ∧ (run K w (allocs.map Op.gf_irq)).worklist = 1 := by
  induction allocs generalizing w with
  | nil => exact ⟨hp, hl⟩
  | cons a rest ih =>
    obtain ⟨hg, hpe, hwl⟩ := gf_irq_fields K w a
    rw [List.map_cons, run_cons]
    apply ih
    · show (gf_irq K w a).1.gf.device_available = 1
      rw [hg, if_pos hav]
      exact hav
    · show (gf_irq K w a).1.work_pending = true
      rw [hpe, if_pos hav]
    · show (gf_irq K w a).1.worklist = 1
      rw [hwl, hp, hl]
      simp

theorem drain_single (w : World) (hl : w.worklist = 1) :
    drain_work w
      = { w with worklist := 0, work_pending := false,
                 trace := w.trace ++ [.dsi_bridge_interface_enable FP_UNLOCK_REJECTION_TIMEOUT] } := by
  unfold drain_work
  rw [hl]
  simp [process_one_work, notification_work, emit, hl]

/-- C5: for every state, one interrupt edge handled by `gf_irq` returns
`IRQ_HANDLED` and calls `sendnlmsg` exactly once, with `GF_NET_EVENT_IRQ`
(1).  With `device_available = 1` it clears `wait_finger_down` and calls
`schedule_work` once; otherwise it leaves the device fields and the work item
untouched and does not call `schedule_work`.  For every non-empty run of
edges with `device_available = 1` starting from a work item that is on the
queue exactly when its pending bit is set, the work item ends up pending with
exactly one entry on the queue, and the worker then runs `notification_work`
exactly once. -/
theorem gf_irq_edge (K : Consts) (w : World) (alloc_ok : Bool) :
    (gf_irq K w alloc_ok).2 = K.IRQ_HANDLED
    ∧ sendCalls (newEvents w (gf_irq K w alloc_ok).1) = [some GF_NET_EVENT_IRQ]
    ∧ (w.gf.device_available = 1 →
        (gf_irq K w alloc_ok).1.gf = { w.gf with wait_finger_down := 0 }
        ∧ scheduleCalls (newEvents w (gf_irq K w alloc_ok).1) = 1
        ∧ (gf_irq K w alloc_ok).1.work_pending = true)
    ∧ (w.gf.device_available ≠ 1 →
        (gf_irq K w alloc_ok).1.gf = w.gf
        ∧ scheduleCalls (newEvents w (gf_irq K w alloc_ok).1) = 0
        ∧ (gf_irq K w alloc_ok).1.work_pending = w.work_pending
        ∧ (gf_irq K w alloc_ok).1.worklist = w.worklist)
    ∧ (∀ allocs : List Bool, allocs ≠ [] → w.gf.device_available = 1 →
        w.worklist = (if w.work_pending = true then 1 else 0) →
        (run K w (allocs.map Op.gf_irq)).work_pending = true
        ∧ (run K w (allocs.map Op.gf_irq)).worklist = 1
        ∧ newEvents (run K w (allocs.map Op.gf_irq))
            (drain_work (run K w (allocs.map Op.gf_irq)))
            = [.dsi_bridge_interface_enable FP_UNLOCK_REJECTION_TIMEOUT]
        ∧ (drain_work (run K w (allocs.map Op.gf_irq))).worklist = 0) := by
  obtain ⟨hg, hpe, hwl⟩ := gf_irq_fields K w alloc_ok
  obtain ⟨l, hl, hs, hc⟩ := gf_irq_trace K w alloc_ok
  refine ⟨rfl, ?_, ?_, ?_, ?_⟩
  · rw [newEvents_append w _ l hl, hs]
  · intro h
    rw [newEvents_append w _ l hl, hc, hg, hpe]
    simp [h]
  · intro h
    rw [newEvents_append w _ l hl, hc, hg, hpe, hwl]
    simp [h]
  · intro allocs hne hav hq
    cases allocs with
    | nil => exact absurd rfl hne
    | cons a rest =>
      obtain ⟨hg1, hpe1, hwl1⟩ := gf_irq_fields K w a
      have hrun : run K w ((a :: rest).map Op.gf_irq)
          = run K (gf_irq K w a).1 (rest.map Op.gf_irq) := rfl
      rw [hrun]
      have h1 : (gf_irq K w a).1.gf.device_available = 1 := by
        rw [hg1, if_pos hav]
        exact hav
      have h2 : (gf_irq K w a).1.work_pending = true := by rw [hpe1, if_pos hav]
      have h3 : (gf_irq K w a).1.worklist = 1 := by
        rw [hwl1, hq]
        cases hpend : w.work_pending <;> simp [hav]
      obtain ⟨hp, hq1⟩ := run_irq_edges_pending K rest (gf_irq K w a).1 h1 h2 h3
      refine ⟨hp, hq1, ?_, ?_⟩
      · rw [drain_single _ hq1]
        simp [newEvents]
      · rw [drain_single _ hq1]

/-- C5 evaluated: three edges on a ready device with an empty queue leave one
entry of the work item queued, and the worker then makes one display-bridge
call. -/
theorem gf_irq_edge_three_edges :
    (run sampleConsts (gf_ioctl sampleConsts fresh .GF_IOC_HAL_INITED_READY ⟨true, none⟩).1
        ([true, false, true].map Op.gf_irq)).worklist = 1
    ∧ newEvents (run sampleConsts
          (gf_ioctl sampleConsts fresh .GF_IOC_HAL_INITED_READY ⟨true, none⟩).1
          ([true, false, true].map Op.gf_irq))
        (drain_work (run sampleConsts
          (gf_ioctl sampleConsts fresh .GF_IOC_HAL_INITED_READY ⟨true, none⟩).1
          ([true, false, true].map Op.gf_irq)))
        = [.dsi_bridge_interface_enable 1500] := by
  have h := (gf_irq_edge sampleConsts
    (gf_ioctl sampleConsts fresh .GF_IOC_HAL_INITED_READY ⟨true, none⟩).1 true).2.2.2.2
    [true, false, true] (by decide) (by decide) (by decide)
  exact ⟨h.2.1, h.2.2.1⟩

/-! ## Interrupt masking: what each function does to `irqState` -/

theorem irqState_emit (w : World) (e : Event) : irqState (emit w e) = irqState w := rfl

theorem irqState_devm_gpio_request (w : World) (g rc : Int) :
    irqState (devm_gpio_request w g rc) = irqState w := by
  unfold devm_gpio_request
  split_ifs <;> rfl

theorem irqState_gpio_free (w : World) (g : Int) : irqState (gpio_free w g) = irqState w := rfl

theorem irqState_gf_cleanup (K : Consts) (w : World) :
    irqState (gf_cleanup K w) = irqState w := by
  unfold gf_cleanup
  dsimp only
  split_ifs <;> rfl

theorem irqState_sendnlmsg (w : World) (m : Option Nat) (a : Bool) :
    irqState (sendnlmsg w m a) = irqState w := by
  obtain ⟨l, h, _⟩ := sendnlmsg_eq w m a
  rw [h]
  rfl

theorem irqState_gf_parse_dts (w : World) (e : DtsEnv) :
    irqState (gf_parse_dts w e).1 = irqState w := by
  unfold gf_parse_dts devm_gpio_request
  dsimp only
  split_ifs <;> rfl

theorem gf_parse_dts_status (w : World) (e : DtsEnv) :
    (gf_parse_dts w e).2 = dts_status e := by
  unfold gf_parse_dts dts_status
  dsimp only
  split_ifs <;> rfl

theorem irqState_gf_irq (K : Consts) (w : World) (a : Bool) :
    irqState (gf_irq K w a).1 = irqState w := by
  obtain ⟨l, _, _, h⟩ := gf_irq_eq K w a
  rw [h, schedule_work_eq]
  dsimp only
  split_ifs <;> rfl

theorem irqState_gf_state_chg_cb (K : Consts) (w : World) (val : DrmEvent)
    (evdata : Option (Option DrmBlank)) (a : Bool) :
    irqState (gf_state_chg_cb K w val evdata a).1 = irqState w := by
  have h3 := irqState_sendnlmsg { w with gf := { w.gf with drm_black := 0 } } (some 3) a
  have h2 := irqState_sendnlmsg
    { w with gf := { w.gf with drm_black := 1, wait_finger_down := 1 } } (some 2) a
  rcases evdata with _ | _ | blank
  · unfold gf_state_chg_cb
    dsimp only
    split_ifs <;> rfl
  · unfold gf_state_chg_cb
    dsimp only
    split_ifs <;> rfl
  · cases blank <;>
      (unfold gf_state_chg_cb
       dsimp only
       split_ifs <;> first | rfl | exact h3 | exact h2)

theorem irqState_process_one_work (w : World) : irqState (process_one_work w) = irqState w := by
  unfold process_one_work
  split_ifs <;> rfl

theorem irqState_nl_data_ready (K : Consts) (w : World) (len pid : Nat) :
    irqState (nl_data_ready K w len pid) = irqState w := by
  unfold nl_data_ready
  split_ifs <;> rfl

theorem irqState_gf_kernel_key_input (K : Consts) (w : World) (k : gf_key) :
    irqState (gf_kernel_key_input K w k) = irqState w := by
  rw [gf_kernel_key_input_eq]
  rfl

theorem irqState_set_device_available (v : World) (n : Int) :
    irqState { v with gf := { v.gf with device_available := n } } = irqState v := rfl

theorem irqState_set_irq_enabled (v : World) (n : Int) :
    irqState { v with gf := { v.gf with irq_enabled := n } }
      = { irqState v with irq_enabled := n } := rfl

theorem irqState_set_users (v : World) (n : Nat) :
    irqState { v with gf := { v.gf with users := n } } = { irqState v with users := n } := rfl

theorem irqState_disable_irq (w : World) (n : Int) :
    irqState (disable_irq w n) = (irqState w).onDisable n := by
  simp only [irqState, disable_irq, emit, IrqState.onDisable]
  split_ifs <;> simp_all

theorem irqState_enable_irq (w : World) (n : Int) :
    irqState (enable_irq w n) = (irqState w).onEnable n := by
  simp only [irqState, enable_irq, emit, IrqState.onEnable]
  split_ifs <;> simp_all

theorem irqState_gf_open_mask (w : World) :
    irqState (gf_open_mask w) = (irqState w).onMask := by
  simp only [irqState, gf_open_mask, disable_irq, emit, IrqState.onMask, IrqState.onDisable]
  split_ifs <;> simp_all

theorem irqState_irq_setup (w : World) (irq status : Int) :
    irqState (irq_setup w irq status).1 = (irqState w).onSetup irq status
    ∧ (irq_setup w irq status).2 = status := by
  simp only [irqState, irq_setup, request_threaded_irq, emit, IrqState.onSetup]
  split_ifs <;> simp_all

theorem irqState_irq_cleanup (w : World) :
    irqState (irq_cleanup w) = (irqState w).onCleanup := by
  simp only [irqState, irq_cleanup, free_irq, disable_irq, emit, IrqState.onCleanup]
  split_ifs <;> simp_all

/-! ## Open, release and the commands on `irqState` -/

theorem gf_open_eq (K : Consts) (w w1 : World) (e : OpenEnv)
    (hw1 : w1 = { w with gf := { w.gf with users := (w.gf.users + 1) % UINT_MOD } }) :
    gf_open K w e
      = if w.listed = true ∧ w.gf.devt = e.i_rdev then
          (if w1.gf.users = 1 then
            (if (gf_parse_dts w1 e.dts).2 ≠ 0 then gf_parse_dts w1 e.dts
             else (gf_open_mask
                    (if e.irq_status ≠ 0 then
                      gf_cleanup K (irq_setup (gf_parse_dts w1 e.dts).1 e.irq e.irq_status).1
                     else (irq_setup (gf_parse_dts w1 e.dts).1 e.irq e.irq_status).1),
                   e.irq_status))
           else (gf_open_mask w1, 0))
        else (w, -K.ENXIO) := by
  have hs := fun v => (irqState_irq_setup v e.irq e.irq_status).2
  unfold gf_open
  rw [← hw1]
  dsimp only
  simp only [hs]

theorem gf_open_status (K : Consts) (w : World) (e : OpenEnv) :
    (gf_open K w e).2
      = if w.listed = true ∧ w.gf.devt = e.i_rdev then
          (if (w.gf.users + 1) % UINT_MOD = 1 then
            (if dts_status e.dts ≠ 0 then dts_status e.dts else e.irq_status)
           else 0)
        else -K.ENXIO := by
  rw [gf_open_eq K w _ e rfl]
  simp only [gf_parse_dts_status]
  split_ifs <;> first | rfl | exact gf_parse_dts_status _ _

theorem irqState_gf_open (K : Consts) (w : World) (e : OpenEnv) :
    irqState (gf_open K w e).1
      = (irqState w).onOpen (decide (w.listed = true ∧ w.gf.devt = e.i_rdev)) e := by
  rw [gf_open_eq K w _ e rfl]
  simp only [gf_parse_dts_status]
  unfold IrqState.onOpen
  by_cases hf : w.listed = true ∧ w.gf.devt = e.i_rdev
  · rw [if_pos hf, if_pos (decide_eq_true hf)]
    by_cases hu : (w.gf.users + 1) % UINT_MOD = 1
    · have hu2 : ((irqState w).users + 1) % UINT_MOD = 1 := hu
      rw [if_pos hu, if_pos hu2]
      by_cases hp : dts_status e.dts ≠ 0
      · rw [if_pos hp, if_pos hp, irqState_gf_parse_dts]
        rfl
      · rw [if_neg hp, if_neg hp]
        by_cases hi : e.irq_status ≠ 0
        · rw [if_pos hi]
          show irqState (gf_open_mask _) = _
          rw [irqState_gf_open_mask, irqState_gf_cleanup, (irqState_irq_setup _ _ _).1,
            irqState_gf_parse_dts]
          rfl
        · rw [if_neg hi]
          show irqState (gf_open_mask _) = _
          rw [irqState_gf_open_mask, (irqState_irq_setup _ _ _).1, irqState_gf_parse_dts]
          rfl
    · have hu2 : ¬ ((irqState w).users + 1) % UINT_MOD = 1 := hu
      rw [if_neg hu, if_neg hu2]
      show irqState (gf_open_mask _) = _
      rw [irqState_gf_open_mask]
      rfl
  · have hd : ¬ decide (w.listed = true ∧ w.gf.devt = e.i_rdev) = true := by
      simpa using hf
    rw [if_neg hf, if_neg hd]

theorem irqState_gf_release (K : Consts) (w : World) :
    irqState (gf_release K w).1 = (irqState w).onRelease := by
  unfold IrqState.onRelease
  by_cases hu : uint_dec w.gf.users = 0
  · have hu2 : uint_dec (irqState w).users = 0 := hu
    have h : gf_release K w
        = ({ gf_cleanup K (irq_cleanup
              { w with gf := { w.gf with users := uint_dec w.gf.users } })
             with gf := { (gf_cleanup K (irq_cleanup
              { w with gf := { w.gf with users := uint_dec w.gf.users } })).gf
                with device_available := 0 } }, 0) := by
      unfold gf_release
      exact if_pos hu
    rw [h, if_pos hu2]
    show irqState { gf_cleanup K (irq_cleanup
              { w with gf := { w.gf with users := uint_dec w.gf.users } })
             with gf := { (gf_cleanup K (irq_cleanup
              { w with gf := { w.gf with users := uint_dec w.gf.users } })).gf
                with device_available := 0 } } = _
    rw [irqState_set_device_available, irqState_gf_cleanup, irqState_irq_cleanup,
      irqState_set_users]
    exact congrArg IrqState.onCleanup rfl
  · have hu2 : ¬ uint_dec (irqState w).users = 0 := hu
    have h : gf_release K w
        = ({ w with gf := { w.gf with users := uint_dec w.gf.users } }, 0) := by
      unfold gf_release
      exact if_neg hu
    rw [h, if_neg hu2]
    rfl

theorem irqState_gf_ioctl (K : Consts) (w : World) (cmd : IoctlCmd) (arg : UserArg) :
    irqState (gf_ioctl K w cmd arg).1 = (irqState w).onIoctl cmd := by
  cases cmd
  · unfold gf_ioctl
    dsimp only
    split_ifs <;> rfl
  · rfl
  · unfold gf_ioctl IrqState.onIoctl
    dsimp only
    by_cases h : w.gf.irq_enabled = 0
    · have h2 : (irqState w).irq_enabled = 0 := h
      rw [if_pos h, if_pos h2]
      show irqState { enable_irq w w.gf.irq with
        gf := { (enable_irq w w.gf.irq).gf with irq_enabled := 1 } } = _
      rw [irqState_set_irq_enabled, irqState_enable_irq]
      rfl
    · have h2 : ¬ (irqState w).irq_enabled = 0 := h
      rw [if_neg h, if_neg h2]
  · unfold gf_ioctl IrqState.onIoctl
    dsimp only
    by_cases h : w.gf.irq_enabled ≠ 0
    · have h2 : (irqState w).irq_enabled ≠ 0 := h
      rw [if_pos h, if_pos h2]
      show irqState { disable_irq w w.gf.irq with
        gf := { (disable_irq w w.gf.irq).gf with irq_enabled := 0 } } = _
      rw [irqState_set_irq_enabled, irqState_disable_irq]
      rfl
    · have h2 : ¬ (irqState w).irq_enabled ≠ 0 := h
      rw [if_neg h, if_neg h2]
  · unfold gf_ioctl
    dsimp only
    cases arg.key with
    | none => rfl
    | some k => exact irqState_gf_kernel_key_input K w k
  · rfl
  · rfl

theorem step_gf_open (K : Consts) (w : World) (e : OpenEnv) :
    step K w (.gf_open e) = (gf_open K w e).1 := rfl

theorem step_gf_release (K : Consts) (w : World) :
    step K w .gf_release = (gf_release K w).1 := rfl

theorem step_gf_ioctl (K : Consts) (w : World) (cmd : IoctlCmd) (arg : UserArg) :
    step K w (.gf_ioctl cmd arg) = (gf_ioctl K w cmd arg).1 := rfl

theorem onStep_gf_open (s : IrqState) (found : Bool) (e : OpenEnv) :
    s.onStep found (.gf_open e) = s.onOpen found e := rfl

theorem onStep_gf_release (s : IrqState) (found : Bool) :
    s.onStep found .gf_release = s.onRelease := rfl

theorem onStep_gf_ioctl (s : IrqState) (found : Bool) (cmd : IoctlCmd) (arg : UserArg) :
    s.onStep found (.gf_ioctl cmd arg) = s.onIoctl cmd := rfl

theorem irqState_step (K : Consts) (w : World) (op : Op) :
    ∃ found : Bool, irqState (step K w op) = (irqState w).onStep found op := by
  cases op with
  | gf_open e =>
    refine ⟨decide (w.listed = true ∧ w.gf.devt = e.i_rdev), ?_⟩
    rw [step_gf_open, onStep_gf_open]
    exact irqState_gf_open K w e
  | gf_release =>
    refine ⟨true, ?_⟩
    rw [step_gf_release, onStep_gf_release]
    exact irqState_gf_release K w
  | gf_ioctl cmd arg =>
    refine ⟨true, ?_⟩
    rw [step_gf_ioctl, onStep_gf_ioctl]
    exact irqState_gf_ioctl K w cmd arg
  | gf_irq a => exact ⟨true, irqState_gf_irq K w a⟩
  | gf_state_chg_cb val evdata a => exact ⟨true, irqState_gf_state_chg_cb K w val evdata a⟩
  | process_one_work => exact ⟨true, irqState_process_one_work w⟩
  | nl_data_ready len pid => exact ⟨true, irqState_nl_data_ready K w len pid⟩

/-! ## Masking is kept until EnableIrq -/

theorem onMask_irq_enabled (s : IrqState) : s.onMask.irq_enabled = 0 := by
  unfold IrqState.onMask
  split_ifs with h
  · rfl
  · exact not_not.mp h

theorem onStep_keeps_masked (s : IrqState) (found : Bool) (op : Op)
    (hop : op.isEnableIrq = false) (h : s.irq_enabled = 0) :
    (s.onStep found op).irq_enabled = 0 := by
  cases op with
  | gf_open e =>
    rw [onStep_gf_open]
    unfold IrqState.onOpen
    split_ifs
    · exact h
    · exact onMask_irq_enabled _
    · exact onMask_irq_enabled _
    · exact h
  | gf_release =>
    rw [onStep_gf_release]
    unfold IrqState.onRelease
    split_ifs
    · rfl
    · exact h
  | gf_ioctl cmd arg =>
    rw [onStep_gf_ioctl]
    cases cmd with
    | GF_IOC_ENABLE_IRQ => exact absurd hop (by simp [Op.isEnableIrq])
    | GF_IOC_DISABLE_IRQ =>
      unfold IrqState.onIoctl
      split_ifs
      · rfl
      · exact h
    | _ => exact h
  | _ => exact h

theorem gf_open_success_masks (K : Consts) (w : World) (e : OpenEnv)
    (h : (gf_open K w e).2 = 0) : (gf_open K w e).1.gf.irq_enabled = 0 := by
  have hne : -K.ENXIO ≠ 0 := by
    have := K.ENXIO_pos
    omega
  show (irqState (gf_open K w e).1).irq_enabled = 0
  rw [irqState_gf_open]
  rw [gf_open_status] at h
  unfold IrqState.onOpen
  by_cases hf : w.listed = true ∧ w.gf.devt = e.i_rdev
  · rw [if_pos hf] at h
    rw [if_pos (decide_eq_true hf)]
    split_ifs with hu hp
    · have hu2 : (w.gf.users + 1) % UINT_MOD = 1 := hu
      rw [if_pos hu2, if_pos hp] at h
      exact absurd h hp
    · exact onMask_irq_enabled _
    · exact onMask_irq_enabled _
  · rw [if_neg hf] at h
    exact absurd h hne

theorem run_keeps_masked (K : Consts) (ops : List Op) (w : World)
    (hops : ∀ op ∈ ops, op.isEnableIrq = false) (h : w.gf.irq_enabled = 0) :
    (run K w ops).gf.irq_enabled = 0 := by
  induction ops generalizing w with
  | nil => exact h
  | cons op rest ih =>
    rw [run_cons]
    apply ih (step K w op) (fun o ho => hops o (List.mem_cons_of_mem _ ho))
    obtain ⟨found, hf⟩ := irqState_step K w op
    show (irqState (step K w op)).irq_enabled = 0
    rw [hf]
    exact onStep_keeps_masked _ found op (hops op (List.mem_cons_self _ _)) h

/-- C2: for every state, if `gf_open` returns 0 then `irq_enabled` is 0 in the
state it leaves (whether it acquired the interrupt on the 0 -> 1 transition or
found the device already open, with interrupts enabled or not), and
`irq_enabled` is still 0 after every sequence of operations that contains no
EnableIrq command: further opens (successful or failed), releases, every other
command, interrupt edges, display events, runs of the deferred work, inbound
netlink messages. -/
theorem gf_open_masks_until_enable (K : Consts) (w : World) (e : OpenEnv) (ops : List Op)
    (hopen : (gf_open K w e).2 = 0) (hops : ∀ op ∈ ops, op.isEnableIrq = false) :
    (gf_open K w e).1.gf.irq_enabled = 0
    ∧ (run K (gf_open K w e).1 ops).gf.irq_enabled = 0 :=
  ⟨gf_open_success_masks K w e hopen,
   run_keeps_masked K ops _ hops (gf_open_success_masks K w e hopen)⟩

/-- C2 evaluated: a second open of a device that is open with interrupts
enabled returns 0 and masks them, and they stay masked through DisableIrq,
Reset, an interrupt edge, both releases and a failed open. -/
theorem gf_open_masks_until_enable_witness :
    openAndEnabled.gf.irq_enabled = 1
    ∧ (gf_open sampleConsts openAndEnabled okOpen).2 = 0
    ∧ (gf_open sampleConsts openAndEnabled okOpen).1.gf.irq_enabled = 0
    ∧ (run sampleConsts (gf_open sampleConsts openAndEnabled okOpen).1
        [.gf_ioctl .GF_IOC_DISABLE_IRQ ⟨true, none⟩, .gf_ioctl .GF_IOC_RESET ⟨true, none⟩,
         .gf_irq true, .gf_release, .gf_release,
         .gf_open ⟨0, ⟨-2, 0, 0, 0⟩, 0, 0⟩]).gf.irq_enabled = 0 :=
  ⟨by with_unfolding_all decide, by with_unfolding_all decide,
   gf_open_masks_until_enable sampleConsts openAndEnabled okOpen _
     (by with_unfolding_all decide) (by decide)⟩

/-! ## The interrupt line stays balanced -/

theorem UINT_MOD_val : UINT_MOD = 4294967296 := by
  unfold UINT_MOD
  norm_num

theorem allOk_status (e : OpenEnv) (h : e.allOk = true) :
    dts_status e.dts = 0 ∧ e.irq_status = 0 := by
  simp only [OpenEnv.allOk, Bool.and_eq_true, decide_eq_true_eq] at h
  obtain ⟨⟨⟨⟨h1, h2⟩, h3⟩, h4⟩, h5⟩ := h
  refine ⟨?_, h5⟩
  unfold dts_status
  rw [if_neg (not_lt.mpr h1), if_neg (not_not.mpr h2), if_neg (not_lt.mpr h3)]
  exact h4

theorem onOpen_balanced (s : IrqState) (found : Bool) (e : OpenEnv)
    (hb : s.Balanced) (hok : e.allOk = true) : (s.onOpen found e).Balanced := by
  obtain ⟨hd, hi⟩ := allOk_status e hok
  obtain ⟨hu, hc⟩ := hb
  unfold IrqState.onOpen
  by_cases hf : found = true
  · rw [if_pos hf]
    by_cases h1 : (s.users + 1) % UINT_MOD = 1
    · rw [if_pos h1, if_neg (not_not.mpr hd), hi]
      simp [IrqState.onSetup, IrqState.onMask, IrqState.onDisable, IrqState.Balanced, hu]
    · rw [if_neg h1]
      rcases hc with ⟨_, hz⟩ | ⟨ha, hcase⟩
      · exfalso
        apply h1
        rw [hz, UINT_MOD_val]
      · rcases hcase with ⟨he, hdp⟩ | ⟨he, hdp⟩ <;>
          simp [IrqState.onMask, IrqState.onDisable, IrqState.Balanced, hu, ha, he, hdp]
  · rw [if_neg hf]
    exact ⟨hu, hc⟩

theorem onRelease_balanced (s : IrqState) (hb : s.Balanced) (hpos : 0 < s.users) :
    s.onRelease.Balanced := by
  obtain ⟨hu, hc⟩ := hb
  rcases hc with ⟨_, hz⟩ | ⟨ha, hcase⟩
  · omega
  · unfold IrqState.onRelease
    split_ifs with h0
    · simp [IrqState.onCleanup, IrqState.Balanced, hu, ha, h0]
    · exact ⟨hu, Or.inr ⟨ha, hcase⟩⟩

theorem onIoctl_balanced (s : IrqState) (cmd : IoctlCmd) (hb : s.Balanced) :
    (s.onIoctl cmd).Balanced := by
  obtain ⟨hu, hc⟩ := hb
  cases cmd with
  | GF_IOC_ENABLE_IRQ =>
    rcases hc with ⟨ha, hz⟩ | ⟨ha, ⟨he, hdp⟩ | ⟨he, hdp⟩⟩
    · unfold IrqState.onIoctl
      split_ifs <;>
        simp [IrqState.onEnable, IrqState.Balanced, hu, ha, hz]
    · simp [IrqState.onIoctl, IrqState.onEnable, IrqState.Balanced, hu, ha, he, hdp]
    · simp [IrqState.onIoctl, IrqState.onEnable, IrqState.Balanced, hu, ha, he, hdp]
  | GF_IOC_DISABLE_IRQ =>
    rcases hc with ⟨ha, hz⟩ | ⟨ha, ⟨he, hdp⟩ | ⟨he, hdp⟩⟩
    · unfold IrqState.onIoctl
      split_ifs <;>
        simp [IrqState.onDisable, IrqState.Balanced, hu, ha, hz]
    · simp [IrqState.onIoctl, IrqState.onDisable, IrqState.Balanced, hu, ha, he, hdp]
    · simp [IrqState.onIoctl, IrqState.onDisable, IrqState.Balanced, hu, ha, he, hdp]
  | _ => exact ⟨hu, hc⟩

theorem onStep_balanced (s : IrqState) (found : Bool) (op : Op) (hb : s.Balanced)
    (hopen : ∀ e, op = .gf_open e → e.allOk = true)
    (hrel : op = .gf_release → 0 < s.users) : (s.onStep found op).Balanced := by
  cases op with
  | gf_open e =>
    rw [onStep_gf_open]
    exact onOpen_balanced s found e hb (hopen e rfl)
  | gf_release =>
    rw [onStep_gf_release]
    exact onRelease_balanced s hb (hrel rfl)
  | gf_ioctl cmd arg =>
    rw [onStep_gf_ioctl]
    exact onIoctl_balanced s cmd hb
  | _ => exact hb

theorem run_balanced (K : Consts) (ops : List Op) (w : World) (hb : (irqState w).Balanced)
    (hs : opensSucceed ops = true) (hr : releasesOnOpenHandle K w ops = true) :
    (irqState (run K w ops)).Balanced := by
  induction ops generalizing w with
  | nil => exact hb
  | cons op rest ih =>
    rw [run_cons]
    obtain ⟨found, hf⟩ := irqState_step K w op
    have hs2 : opensSucceed rest = true ∧ ∀ e, op = .gf_open e → e.allOk = true := by
      cases op <;> simp_all [opensSucceed]
    have hr2 : releasesOnOpenHandle K (step K w op) rest = true
        ∧ (op = .gf_release → 0 < (irqState w).users) := by
      cases op <;> simp_all [releasesOnOpenHandle, irqState]
    apply ih (step K w op) _ hs2.1 hr2.1
    rw [hf]
    exact onStep_balanced _ found op hb hs2.2 hr2.2

/-- C10: start from a state with no handle open, no handler installed and no
unbalanced enable recorded (such as the freshly probed device), and run any
sequence of operations in which every open has all its acquisition steps
succeed and every release happens with a handle open; it may contain EnableIrq
and DisableIrq commands and any other operation.  In the state reached, hence
in every state between operations, if `users > 0` then the handler is
installed on `irq`, the line's disable depth is 0 or 1, and `irq_enabled = 1`
exactly when the depth is 0; and `enable_irq` has never been called on the
installed line at depth 0. -/
theorem irq_depth_balanced (K : Consts) (w : World) (ops : List Op)
    (h0 : w.gf.users = 0) (h1 : w.irq_action = none) (h2 : w.unbalanced_enable = false)
    (hs : opensSucceed ops = true) (hr : releasesOnOpenHandle K w ops = true) :
    (0 < (run K w ops).gf.users →
      (run K w ops).irq_action = some (run K w ops).gf.irq
      ∧ ((run K w ops).irq_depth = 0 ∨ (run K w ops).irq_depth = 1)
      ∧ ((run K w ops).gf.irq_enabled = 1 ↔ (run K w ops).irq_depth = 0))
    ∧ (run K w ops).unbalanced_enable = false := by
  have hb : (irqState w).Balanced := ⟨h2, Or.inl ⟨h1, h0⟩⟩
  obtain ⟨hu, hc⟩ := run_balanced K ops w hb hs hr
  refine ⟨fun hpos => ?_, hu⟩
  rcases hc with ⟨_, hz⟩ | ⟨ha, hcase⟩
  · have hz2 : (run K w ops).gf.users = 0 := hz
    omega
  · have ha2 : (run K w ops).irq_action = some (run K w ops).gf.irq := ha
    refine ⟨ha2, ?_⟩
    rcases hcase with ⟨he, hd⟩ | ⟨he, hd⟩
    · have he2 : (run K w ops).gf.irq_enabled = 1 := he
      have hd2 : (run K w ops).irq_depth = 0 := hd
      exact ⟨Or.inl hd2, fun _ => hd2, fun _ => he2⟩
    · have he2 : (run K w ops).gf.irq_enabled = 0 := he
      have hd2 : (run K w ops).irq_depth = 1 := hd
      refine ⟨Or.inr hd2, fun h => ?_, fun h => ?_⟩
      · rw [he2] at h
        exact absurd h (by decide)
      · rw [hd2] at h
        exact absurd h (by decide)

/-- C10 evaluated on the sample life of a freshly probed device: it ends with
one handle open, and the conclusion holds there. -/
theorem irq_depth_balanced_witness :
    (run sampleConsts fresh lifecycleOps).gf.users = 1
    ∧ (run sampleConsts fresh lifecycleOps).irq_depth = 1
    ∧ ((0 < (run sampleConsts fresh lifecycleOps).gf.users →
        (run sampleConsts fresh lifecycleOps).irq_action
          = some (run sampleConsts fresh lifecycleOps).gf.irq
        ∧ ((run sampleConsts fresh lifecycleOps).irq_depth = 0
            ∨ (run sampleConsts fresh lifecycleOps).irq_depth = 1)
        ∧ ((run sampleConsts fresh lifecycleOps).gf.irq_enabled = 1
            ↔ (run sampleConsts fresh lifecycleOps).irq_depth = 0))
      ∧ (run sampleConsts fresh lifecycleOps).unbalanced_enable = false) :=
  ⟨by with_unfolding_all decide, by with_unfolding_all decide,
   irq_depth_balanced sampleConsts fresh lifecycleOps (by decide) (by decide) (by decide)
     (by with_unfolding_all decide) (by with_unfolding_all decide)⟩

end GfSpi
